import Mathlib

/-!
Shallow embedding of the scan-session orchestration logic of the
faceScan-bp-calculate repository.

Two orchestration variants exist in the source:
* the detector-equipped variant (`src/unnamed/part_000`, `Step2_Scanning`):
  face-presence tracking, a face-lost restart rule, time-based progress
  reconciliation, a consecutive-transport-failure budget, and late-error
  suppression — embedded below as `pollTick` / `startScan`;
* the headless variant (`src/frontend/app.jsx`, `Step2_Scanning`):
  a plain poll loop with no clock and no failure tolerance — embedded
  below as `headlessPollTick`.

Times are wall-clock milliseconds; numbers are modelled as ℚ (the JS
operations used here — +, -, *, /, min, max, comparisons — are exact).
-/

namespace FaceScan

/-- JavaScript `Math.round`: round half up, i.e. `⌊x + 0.5⌋`. -/
def jsRound (q : ℚ) : ℤ := ⌊q + 1 / 2⌋

/-- Server-reported scan status (`statusData.status`): the code compares
against the literals `'complete'` and `'error'`; every other value behaves
like `running`. -/
inductive RemoteStatus where
  | running
  | complete
  | error
  deriving DecidableEq

/-- The body of a successful `/scan/status` response, as read by the code:
`status`, optional `progress_percent`, optional `message`. -/
structure StatusData where
  status : RemoteStatus
  progressPercent : Option ℚ
  message : Option String
  deriving DecidableEq

/-- Outcome of one `api.getStatus()` call: either a parsed body, or a thrown
transport error carrying `err.message`. -/
inductive PollOutcome where
  | success (dta : StatusData)
  | failure (errMsg : String)
  deriving DecidableEq

/-- Outcome of the `api.reset(); api.startScan(...)` pair attempted in the
face-lost branch (both calls sit in one `try`): both succeed, the reset
throws (so the start is never attempted), or the start throws. -/
inductive RestartOutcome where
  | bothOk
  | resetFailed
  | startFailed
  deriving DecidableEq

/-- Remote calls issued by a step, in order. -/
inductive ApiCall where
  | start
  | reset
  deriving DecidableEq

/-- Component state of the detector-equipped `Step2_Scanning`:
React state (`scanning`, `progress`, `message`, `error`, `faceDetected`)
plus the refs `scanStartedRef`, `lastFaceSeenRef`, and whether
`pollIntervalRef` currently holds a live interval. -/
structure ScanUIState where
  scanning : Bool
  progress : ℚ
  message : String
  error : Option String
  scanStarted : Bool
  lastFaceSeen : ℚ
  faceDetected : Bool
  pollActive : Bool
  deriving DecidableEq

/-- `Date.now() - lastFaceSeenRef.current` (part_000 line 389). -/
def timeSinceFace (s : ScanUIState) (now : ℚ) : ℚ := now - s.lastFaceSeen

/-- `Math.min((timeElapsed / (scanDuration * 1000)) * 100, 99)`
(part_000 line 408). -/
def timeBasedProgress (timeElapsed scanDurationSec : ℚ) : ℚ :=
  min (timeElapsed / (scanDurationSec * 1000) * 100) 99

/-- Message written by the success and failure poll branches: depends on the
current `faceDetected` flag (part_000 lines 423-427 and 476-480). -/
def scanningMessage (s : ScanUIState) (p : ℚ) : String :=
  if s.faceDetected then "Scanning... " ++ toString (jsRound p) ++ "% complete"
  else "⚠ Keep your face in the frame!"

/-- Effect of the face-lost branch on component state (part_000
lines 392-402): message, progress reset to 0, `lastFaceSeenRef` refreshed.
Note `scanStartTime` is a `const` closure variable and is NOT touched. -/
def faceLostState (s : ScanUIState) (now : ℚ) : ScanUIState :=
  { s with message := "⚠ Face lost! Restarting scan..."
           progress := 0
           lastFaceSeen := now }

/-- Effect of the top of the successful-poll branch (part_000
lines 417-427): progress becomes `Math.max(apiProgress, timeBasedProgress)`
with absent `progress_percent` read as 0 (`|| 0`). -/
def successState (s : ScanUIState) (timeElapsed d : ℚ) (dta : StatusData) :
    ScanUIState :=
  { s with progress := max (dta.progressPercent.getD 0) (timeBasedProgress timeElapsed d)
           message := scanningMessage s
             (max (dta.progressPercent.getD 0) (timeBasedProgress timeElapsed d)) }

/-- Effect of the fallback in the poll `catch` branch (part_000
lines 473-480): progress becomes pure time-based progress. -/
def failureState (s : ScanUIState) (timeElapsed d : ℚ) : ScanUIState :=
  { s with progress := timeBasedProgress timeElapsed d
           message := scanningMessage s (timeBasedProgress timeElapsed d) }

/-- Effect of the early-server-error branch (part_000 lines 448-455):
stop polling, stop scanning, surface the error, clear `scanStartedRef`. -/
def errorOutState (s : ScanUIState) : ScanUIState :=
  { s with pollActive := false
           scanning := false
           error := some "Scan encountered an issue. Please try again."
           scanStarted := false }

/-- Effect of every completion site (part_000 lines 430-437, 441-447,
463-470, 483-490): stop polling, stop scanning, progress 100, message. -/
def completeState (s : ScanUIState) : ScanUIState :=
  { s with pollActive := false
           scanning := false
           progress := 100
           message := "Scan complete! Processing results..." }

/-- Result of one poll tick: the new component state, the new
`consecutiveErrors` counter, the remote calls issued, and whether
`setTimeout(() => onComplete(), 1500)` was scheduled. -/
structure TickResult where
  state : ScanUIState
  consecutiveErrors : ℕ
  calls : List ApiCall
  completionScheduled : Bool

/-- The face-lost branch of the poll tick (part_000 lines 388-404):
best-effort `api.reset()` then `api.startScan(...)` in one `try`
(so a failed reset skips the start), `consecutiveErrors` reset to 0 only
when both calls succeed (line 398 runs after the start), `lastFaceSeenRef`
refreshed unconditionally afterwards. -/
def faceLostResult (consec : ℕ) (s : ScanUIState) (now : ℚ)
    (restart : RestartOutcome) : TickResult :=
  match restart with
  | RestartOutcome.bothOk =>
      ⟨faceLostState s now, 0, [ApiCall.reset, ApiCall.start], false⟩
  | RestartOutcome.resetFailed =>
      ⟨faceLostState s now, consec, [ApiCall.reset], false⟩
  | RestartOutcome.startFailed =>
      ⟨faceLostState s now, consec, [ApiCall.reset, ApiCall.start], false⟩

/-- The successful-poll branch (part_000 lines 411-456): counter reset to 0,
progress = `Math.max(apiProgress, timeBasedProgress)`; complete when
`timeElapsed ≥ d*1000`, else complete on server `complete`, else error out
on server `error` only when `timeElapsed < d*1000*0.8`, else keep running. -/
def pollSuccessResult (d st : ℚ) (s : ScanUIState) (now : ℚ)
    (dta : StatusData) : TickResult :=
  if d * 1000 ≤ now - st then
    ⟨completeState (successState s (now - st) d dta), 0, [], true⟩
  else if dta.status = RemoteStatus.complete then
    ⟨completeState (successState s (now - st) d dta), 0, [], true⟩
  else if dta.status = RemoteStatus.error ∧ now - st < d * 1000 * (8 / 10) then
    ⟨errorOutState (successState s (now - st) d dta), 0, [], false⟩
  else
    ⟨successState s (now - st) d dta, 0, [], false⟩

/-- The poll `catch` branch (part_000 lines 458-491): counter incremented,
complete when the counter EXCEEDS 5 and time-based progress exceeds 50,
else fall back to pure time-based progress and complete when
`timeElapsed ≥ d*1000`, else keep polling. -/
def pollFailureResult (d st : ℚ) (consec : ℕ) (s : ScanUIState) (now : ℚ) :
    TickResult :=
  if 5 < consec + 1 ∧ 50 < timeBasedProgress (now - st) d then
    ⟨completeState s, consec + 1, [], true⟩
  else if d * 1000 ≤ now - st then
    ⟨completeState (failureState s (now - st) d), consec + 1, [], true⟩
  else
    ⟨failureState s (now - st) d, consec + 1, [], false⟩

/-- One tick of the detector-equipped poll loop, a direct transcription of
part_000 lines 387-492.  `d` is `scanDuration` (seconds), `st` is the
closure constant `scanStartTime`, `consec` the closure variable
`consecutiveErrors` entering the tick, `now` is `Date.now()`, `poll` the
outcome of `api.getStatus()`, `restart` the outcome of the reset/start pair
when the face-lost branch runs.  The face-lost check runs first and returns
early; otherwise the status poll is issued and handled by the success or
`catch` branch. -/
def pollTick (d st : ℚ) (consec : ℕ) (s : ScanUIState) (now : ℚ)
    (poll : PollOutcome) (restart : RestartOutcome) : TickResult :=
  if 3000 < timeSinceFace s now ∧ s.scanStarted = true then
    faceLostResult consec s now restart
  else
    match poll with
    | PollOutcome.success dta => pollSuccessResult d st s now dta
    | PollOutcome.failure _ => pollFailureResult d st consec s now


/-- Result of invoking `startScan` in the detector-equipped variant: the new
component state, the remote calls issued, and — when the poll interval was
installed — the captured `scanStartTime` (the closure's `consecutiveErrors`
starts at 0, part_000 line 380). -/
structure StartScanResult where
  state : ScanUIState
  calls : List ApiCall
  pollInstalled : Bool
  loopStartTime : Option ℚ

/-- `startScan` of the detector-equipped variant up to the installation of
the poll interval (part_000 lines 367-384 and 494-499): the `faceDetected`
guard, optimistic state updates before `await api.startScan`, the captured
`scanStartTime`, and the `catch` branch when the start call throws. -/
def startScan (s : ScanUIState) (now : ℚ) (startOk : Bool) : StartScanResult :=
  if s.faceDetected = false then
    ⟨{ s with message := "Please position your face in the frame first" },
      [], false, none⟩
  else
    if startOk then
      ⟨{ s with scanning := true
                scanStarted := true
                progress := 0
                error := none
                pollActive := true },
        [ApiCall.start], true, some now⟩
    else
      ⟨{ s with scanning := false
                scanStarted := false
                progress := 0
                error := some "Failed to start scan. Please check your connection and try again." },
        [ApiCall.start], false, none⟩

/-- Component state at mount of the detector-equipped variant:
`useState` initial values and `lastFaceSeenRef = useRef(Date.now())`
(part_000 lines 193-204) — the ref starts at the MOUNT time. -/
def initialState (mountTime : ℚ) : ScanUIState :=
  { scanning := false
    progress := 0
    message := "Initializing camera..."
    error := none
    scanStarted := false
    lastFaceSeen := mountTime
    faceDetected := false
    pollActive := false }

/-- `onFaceResults` as it affects presence state (part_000 lines 287-311):
a frame with a face sets `faceDetected` and refreshes `lastFaceSeenRef`;
a frame without one only clears `faceDetected`. -/
def onFaceResult (s : ScanUIState) (now : ℚ) (present : Bool) : ScanUIState :=
  if present then { s with faceDetected := true, lastFaceSeen := now }
  else { s with faceDetected := false }

/-- Component state of the headless `Step2_Scanning`
(src/frontend/app.jsx lines 197-204). -/
structure HeadlessState where
  scanning : Bool
  progress : ℚ
  message : String
  error : Option String
  pollActive : Bool
  deriving DecidableEq

/-- Result of one headless poll tick. -/
structure HeadlessTickResult where
  state : HeadlessState
  completionScheduled : Bool

/-- One tick of the headless poll loop, a direct transcription of
app.jsx lines 228-252: progress is raw `progress_percent || 0` with no
clock and no max; a server `complete` finishes, a server `error` fails
immediately, and a thrown poll error fails the session immediately
(`setError('Lost connection to backend: ' + err.message)`). -/
def headlessPollTick (s : HeadlessState) (poll : PollOutcome) :
    HeadlessTickResult :=
  match poll with
  | PollOutcome.success dta =>
      let base : HeadlessState :=
        { s with progress := dta.progressPercent.getD 0
                 message := dta.message.getD
                   ("Scanning... " ++ toString (jsRound (dta.progressPercent.getD 0)) ++ "%") }
      if dta.status = RemoteStatus.complete then
        ⟨{ base with pollActive := false
                     scanning := false
                     message := "Scan complete! Processing results..." }, true⟩
      else if dta.status = RemoteStatus.error then
        ⟨{ base with pollActive := false
                     scanning := false
                     error := some "Scan failed. Please try again."
                     message := "Scan failed" }, false⟩
      else ⟨base, false⟩
  | PollOutcome.failure errMsg =>
      ⟨{ s with error := some ("Lost connection to backend: " ++ errMsg)
                pollActive := false
                scanning := false }, false⟩

/-- A mid-session state of the detector-equipped variant: scanning, face
currently detected, poll interval live, last face frame at `lastSeen`. -/
def runningState (lastSeen : ℚ) : ScanUIState :=
  { scanning := true
    progress := 0
    message := ""
    error := none
    scanStarted := true
    lastFaceSeen := lastSeen
    faceDetected := true
    pollActive := true }

/-- A mid-session state of the headless variant. -/
def headlessRunningState : HeadlessState :=
  { scanning := true
    progress := 90
    message := ""
    error := none
    pollActive := true }

/-- Shared helper: if the face was seen within the 3000 ms grace period, or
the scan has not started, the face-lost branch of `pollTick` is not taken. -/
theorem presence_ok_not_lost {s : ScanUIState} {now : ℚ}
    (hface : timeSinceFace s now ≤ 3000 ∨ s.scanStarted = false) :
    ¬ (3000 < timeSinceFace s now ∧ s.scanStarted = true) := by
  intro hc
  rcases hface with h | h
  · exact absurd hc.1 (not_lt.mpr h)
  · rw [h] at hc
    exact Bool.false_ne_true hc.2

/-- Dispatch equation of `pollTick` for a successful poll. -/
theorem pollTick_success (d st : ℚ) (consec : ℕ) (s : ScanUIState) (now : ℚ)
    (dta : StatusData) (restart : RestartOutcome) :
    pollTick d st consec s now (PollOutcome.success dta) restart =
      if 3000 < timeSinceFace s now ∧ s.scanStarted = true then
        faceLostResult consec s now restart
      else pollSuccessResult d st s now dta := rfl

/-- Dispatch equation of `pollTick` for a failed poll. -/
theorem pollTick_failure (d st : ℚ) (consec : ℕ) (s : ScanUIState) (now : ℚ)
    (e : String) (restart : RestartOutcome) :
    pollTick d st consec s now (PollOutcome.failure e) restart =
      if 3000 < timeSinceFace s now ∧ s.scanStarted = true then
        faceLostResult consec s now restart
      else pollFailureResult d st consec s now := rfl

/-- Helper: a successful poll reporting `running` before the configured
duration keeps the session running. -/
theorem pollSuccessResult_running (d st : ℚ) (s : ScanUIState) (now : ℚ)
    (dta : StatusData) (hst : dta.status = RemoteStatus.running)
    (hdur : now - st < d * 1000) :
    pollSuccessResult d st s now dta =
      ⟨successState s (now - st) d dta, 0, [], false⟩ := by
  unfold pollSuccessResult
  rw [if_neg (not_le.mpr hdur), hst]
  rw [if_neg (fun hc => RemoteStatus.noConfusion hc)]
  rw [if_neg (fun hc => RemoteStatus.noConfusion hc.1)]

/-- Claim C8: for every elapsed time and duration, the time-based progress
equals `min(elapsed / (durationSeconds * 1000) * 100, 99)`; in particular it
is always below 100, so time-based progress alone never displays 100%. -/
theorem timeBasedProgress_capped (timeElapsed d : ℚ) :
    timeBasedProgress timeElapsed d
        = min (timeElapsed / (d * 1000) * 100) 99 ∧
    timeBasedProgress timeElapsed d < 100 := by
  refine ⟨rfl, ?_⟩
  have h : timeBasedProgress timeElapsed d ≤ 99 := min_le_right _ _
  linarith

/-- Claim C10: in the detector-equipped variant, calling `startScan` while no
face is currently detected only updates the advisory message: every other
state field keeps its prior value, no remote call is issued, and no poll
interval is installed. -/
theorem startScan_guard_no_face (s : ScanUIState) (now : ℚ) (startOk : Bool)
    (h : s.faceDetected = false) :
    startScan s now startOk =
      ⟨{ s with message := "Please position your face in the frame first" },
        [], false, none⟩ := by
  unfold startScan
  rw [if_pos h]

/-- Witness for `startScan_guard_no_face` at the mount state, whose
`faceDetected` flag is false. -/
theorem startScan_guard_no_face_witness :
    startScan (initialState 0) 0 true =
      ⟨{ initialState 0 with
           message := "Please position your face in the frame first" },
        [], false, none⟩ :=
  startScan_guard_no_face (initialState 0) 0 true rfl

/-- Counterexample to claim C7: `lastFaceSeenRef` is initialised to
`Date.now()` at mount (part_000 line 203), not to an effectively-infinite
past.  With mount at 0 and no face ever observed, at `now = 1000` the
tracker reports 1000 ms — the 3000 ms presence-loss rule does NOT fire, and
a tick of a (hypothetically already started) session takes the ordinary
poll branch (no reset/start calls) instead of restarting. -/
theorem fresh_tracker_time_finite :
    timeSinceFace (initialState 0) 1000 = 1000 ∧
    ¬ (3000 < timeSinceFace (initialState 0) 1000) ∧
    (pollTick 45 0 0
        { initialState 0 with
            scanning := true, scanStarted := true, pollActive := true }
        1000 (PollOutcome.failure "e") RestartOutcome.bothOk).calls = [] := by
  refine ⟨by norm_num [timeSinceFace, initialState], ?_, ?_⟩
  · norm_num [timeSinceFace, initialState]
  · norm_num [pollTick, timeSinceFace, timeBasedProgress, initialState,
      pollFailureResult, failureState]

/-- Claim C7 as amended: when presence has never been observed the tracker's
reference point is the mount time, so `timeSinceFace` returns the finite
duration `now - mountTime`; the presence-loss rule therefore does not fire
on a tick within the 3000 ms grace period measured from mount (the tick
issues no reset/start calls), rather than firing immediately. -/
theorem never_seen_face_waits_grace (mountTime now : ℚ)
    (h : now - mountTime ≤ 3000) :
    timeSinceFace (initialState mountTime) now = now - mountTime ∧
    (pollTick 45 mountTime 0
        { initialState mountTime with
            scanning := true, scanStarted := true, pollActive := true }
        now (PollOutcome.failure "e") RestartOutcome.bothOk).calls = [] := by
  constructor
  · rfl
  · rw [pollTick_failure, if_neg (fun hc => absurd hc.1 (not_lt.mpr h))]
    unfold pollFailureResult
    split
    · rfl
    · split
      · rfl
      · rfl

/-- Witness for `never_seen_face_waits_grace` at mount time 0, tick at
1000 ms. -/
theorem never_seen_face_waits_grace_witness :
    timeSinceFace (initialState 0) 1000 = 1000 - 0 ∧
    (pollTick 45 0 0
        { initialState 0 with
            scanning := true, scanStarted := true, pollActive := true }
        1000 (PollOutcome.failure "e") RestartOutcome.bothOk).calls = [] :=
  never_seen_face_waits_grace 0 1000 (by norm_num)

/-- Counterexample to claim C1: five consecutive failing poll ticks with
time-based progress above 50 do NOT complete the session.  Duration 45 s,
session started at 0, face held (last seen at 30000), ticks at
28000..30000 ms all fail: after the fifth consecutive failure the counter
is 5, the interval is still live and no completion was scheduled, although
time-based progress is 200/3 > 50.  The code completes only when the
counter EXCEEDS 5 (part_000 line 463), i.e. on the sixth failure. -/
theorem five_failures_do_not_complete :
    (let r1 := pollTick 45 0 0 (runningState 30000) 28000
        (PollOutcome.failure "e") RestartOutcome.bothOk
     let r2 := pollTick 45 0 r1.consecutiveErrors r1.state 28500
        (PollOutcome.failure "e") RestartOutcome.bothOk
     let r3 := pollTick 45 0 r2.consecutiveErrors r2.state 29000
        (PollOutcome.failure "e") RestartOutcome.bothOk
     let r4 := pollTick 45 0 r3.consecutiveErrors r3.state 29500
        (PollOutcome.failure "e") RestartOutcome.bothOk
     let r5 := pollTick 45 0 r4.consecutiveErrors r4.state 30000
        (PollOutcome.failure "e") RestartOutcome.bothOk
     r5.consecutiveErrors = 5 ∧ r5.state.pollActive = true ∧
       r5.completionScheduled = false ∧ 50 < timeBasedProgress 30000 45) := by
  norm_num [pollTick, timeSinceFace, timeBasedProgress, runningState,
    pollFailureResult, failureState, faceLostState]

/-- Claim C1 as amended: a failing tick completes the session
(interval cleared, progress 100, completion scheduled) only when the
consecutive-failure counter strictly exceeds 5 after the increment — i.e.
on the sixth consecutive failure — with time-based progress above 50;
with five or fewer consecutive failures (and elapsed below the configured
duration) the tick does not complete and keeps polling. -/
theorem consecutive_failure_budget (d st : ℚ) (consec : ℕ) (s : ScanUIState)
    (now : ℚ) (e : String) (restart : RestartOutcome)
    (hface : timeSinceFace s now ≤ 3000 ∨ s.scanStarted = false) :
    (5 ≤ consec → 50 < timeBasedProgress (now - st) d →
      (pollTick d st consec s now (PollOutcome.failure e) restart).state.pollActive
          = false ∧
      (pollTick d st consec s now (PollOutcome.failure e) restart).state.progress
          = 100 ∧
      (pollTick d st consec s now (PollOutcome.failure e) restart).completionScheduled
          = true) ∧
    (consec + 1 ≤ 5 → now - st < d * 1000 → s.pollActive = true →
      (pollTick d st consec s now (PollOutcome.failure e) restart).state.pollActive
          = true ∧
      (pollTick d st consec s now (PollOutcome.failure e) restart).completionScheduled
          = false) := by
  have hcond := presence_ok_not_lost hface
  constructor
  · intro hcount htbp
    rw [pollTick_failure, if_neg hcond]
    unfold pollFailureResult
    rw [if_pos ⟨by omega, htbp⟩]
    exact ⟨rfl, rfl, rfl⟩
  · intro hcount hdur hpoll
    rw [pollTick_failure, if_neg hcond]
    unfold pollFailureResult
    rw [if_neg (fun hc => absurd hc.1 (by omega))]
    rw [if_neg (not_le.mpr hdur)]
    exact ⟨hpoll, rfl⟩

/-- Witness for `consecutive_failure_budget`: the first part at the sixth
consecutive failure (counter 5 entering the tick), the second at the first
failure, both at 30000 ms of a 45 s session with the face held. -/
theorem consecutive_failure_budget_witness :
    (pollTick 45 0 5 (runningState 30000) 30000
        (PollOutcome.failure "e") RestartOutcome.bothOk).state.progress = 100 ∧
    (pollTick 45 0 0 (runningState 30000) 28000
        (PollOutcome.failure "e") RestartOutcome.bothOk).state.pollActive = true :=
  ⟨((consecutive_failure_budget 45 0 5 (runningState 30000) 30000 "e"
        RestartOutcome.bothOk (Or.inl (by norm_num [timeSinceFace, runningState]))).1
      (by norm_num) (by norm_num [timeBasedProgress])).2.1,
   ((consecutive_failure_budget 45 0 0 (runningState 30000) 28000 "e"
        RestartOutcome.bothOk (Or.inl (by norm_num [timeSinceFace, runningState]))).2
      (by norm_num) (by norm_num) rfl).1⟩

/-- Counterexample to claim C2: the headless variant (app.jsx
lines 228-252) never reads the clock, so on a poll tick where the server
reports `running` — even when wall-clock elapsed time is already past
`durationSeconds*1000` (say 46000 ms of a 45 s scan) — the session does
not complete: the interval stays live and no completion is scheduled,
contradicting "the verdict is Complete regardless of the server-reported
status". -/
theorem headless_ignores_elapsed_time :
    (headlessPollTick headlessRunningState
        (PollOutcome.success ⟨RemoteStatus.running, some 90, none⟩)).state.pollActive
        = true ∧
    (headlessPollTick headlessRunningState
        (PollOutcome.success ⟨RemoteStatus.running, some 90, none⟩)).completionScheduled
        = false := by
  constructor <;> rfl

/-- Claim C2 as amended: in the detector-equipped variant, every poll tick
that reaches the status poll (face seen within the grace period) with
elapsed `now - st ≥ d*1000` ends the session as Complete — interval
cleared, scanning stopped, progress 100, completion scheduled — regardless
of the server-reported status on that tick and also when the poll itself
fails; the headless variant has no wall-clock rule. -/
theorem time_elapsed_forces_complete (d st : ℚ) (consec : ℕ)
    (s : ScanUIState) (now : ℚ) (poll : PollOutcome)
    (restart : RestartOutcome)
    (hface : timeSinceFace s now ≤ 3000 ∨ s.scanStarted = false)
    (helapsed : d * 1000 ≤ now - st) :
    (pollTick d st consec s now poll restart).state.pollActive = false ∧
    (pollTick d st consec s now poll restart).state.scanning = false ∧
    (pollTick d st consec s now poll restart).state.progress = 100 ∧
    (pollTick d st consec s now poll restart).completionScheduled = true := by
  have hcond := presence_ok_not_lost hface
  cases poll with
  | success dta =>
      rw [pollTick_success, if_neg hcond]
      unfold pollSuccessResult
      rw [if_pos helapsed]
      exact ⟨rfl, rfl, rfl, rfl⟩
  | failure e =>
      rw [pollTick_failure, if_neg hcond]
      unfold pollFailureResult
      by_cases hc : 5 < consec + 1 ∧ 50 < timeBasedProgress (now - st) d
      · rw [if_pos hc]
        exact ⟨rfl, rfl, rfl, rfl⟩
      · rw [if_neg hc, if_pos helapsed]
        exact ⟨rfl, rfl, rfl, rfl⟩

/-- Witness for `time_elapsed_forces_complete`: a failing poll tick at
45000 ms of a 45 s session with the face just seen. -/
theorem time_elapsed_forces_complete_witness :
    (pollTick 45 0 0 (runningState 45000) 45000
        (PollOutcome.failure "e") RestartOutcome.bothOk).state.pollActive = false ∧
    (pollTick 45 0 0 (runningState 45000) 45000
        (PollOutcome.failure "e") RestartOutcome.bothOk).state.scanning = false ∧
    (pollTick 45 0 0 (runningState 45000) 45000
        (PollOutcome.failure "e") RestartOutcome.bothOk).state.progress = 100 ∧
    (pollTick 45 0 0 (runningState 45000) 45000
        (PollOutcome.failure "e") RestartOutcome.bothOk).completionScheduled = true :=
  time_elapsed_forces_complete 45 0 0 (runningState 45000) 45000
    (PollOutcome.failure "e") RestartOutcome.bothOk
    (Or.inl (by norm_num [timeSinceFace, runningState])) (by norm_num)

/-- Counterexample to claim C3: the face-lost restart does NOT refresh the
session's start timestamp — `scanStartTime` is a `const` captured when
`startScan` ran (part_000 line 379) and the face-lost branch never touches
it.  Session started at 0, face lost at 10000 ms (restart tick), next tick
at 10500 ms with a server report carrying no progress: displayed progress
is 70/3 ≈ 23.3 (time-based from the ORIGINAL start), not the 10/9 ≈ 1.1
that a refreshed start time would give — elapsed/time-based progress does
not restart from zero. -/
theorem restart_keeps_original_start_time :
    (pollTick 45 0 0 (runningState 5000) 10000
        (PollOutcome.failure "e") RestartOutcome.bothOk).state.progress = 0 ∧
    (pollTick 45 0 0 (runningState 5000) 10000
        (PollOutcome.failure "e") RestartOutcome.bothOk).state.lastFaceSeen
      = 10000 ∧
    (pollTick 45 0
        (pollTick 45 0 0 (runningState 5000) 10000
          (PollOutcome.failure "e") RestartOutcome.bothOk).consecutiveErrors
        (pollTick 45 0 0 (runningState 5000) 10000
          (PollOutcome.failure "e") RestartOutcome.bothOk).state
        10500 (PollOutcome.success ⟨RemoteStatus.running, none, none⟩)
        RestartOutcome.bothOk).state.progress = 70 / 3 ∧
    (70 : ℚ) / 3 ≠ timeBasedProgress (10500 - 10000) 45 := by
  have h1 : pollTick 45 0 0 (runningState 5000) 10000
      (PollOutcome.failure "e") RestartOutcome.bothOk
      = ⟨faceLostState (runningState 5000) 10000, 0,
          [ApiCall.reset, ApiCall.start], false⟩ := by
    rw [pollTick_failure,
      if_pos ⟨by norm_num [timeSinceFace, runningState], rfl⟩]
    rfl
  rw [h1]
  refine ⟨rfl, rfl, ?_, by norm_num [timeBasedProgress]⟩
  rw [pollTick_success,
    if_neg (by norm_num [timeSinceFace, faceLostState, runningState]),
    pollSuccessResult_running 45 0 _ 10500 _ rfl (by norm_num)]
  norm_num [successState, timeBasedProgress]

/-- Claim C3 as amended: on a poll tick in Running where the face has been
missing for more than the 3000 ms grace period, the orchestrator resets
displayed progress to 0, refreshes `lastFaceSeen`, keeps scanning/polling
untouched, never surfaces an error, issues a best-effort reset, and issues
the new start only when the reset succeeded (both sit in one `try`); the
counter is cleared only when both calls succeed; the session's start
timestamp is NOT refreshed. -/
theorem face_lost_restart_tick (d st : ℚ) (consec : ℕ) (s : ScanUIState)
    (now : ℚ) (poll : PollOutcome) (restart : RestartOutcome)
    (hlost : 3000 < timeSinceFace s now) (hstarted : s.scanStarted = true) :
    (pollTick d st consec s now poll restart).state.progress = 0 ∧
    (pollTick d st consec s now poll restart).state.scanning = s.scanning ∧
    (pollTick d st consec s now poll restart).state.error = s.error ∧
    (pollTick d st consec s now poll restart).state.pollActive = s.pollActive ∧
    (pollTick d st consec s now poll restart).state.scanStarted = true ∧
    (pollTick d st consec s now poll restart).state.lastFaceSeen = now ∧
    (pollTick d st consec s now poll restart).calls.head? = some ApiCall.reset ∧
    (restart ≠ RestartOutcome.resetFailed →
      (pollTick d st consec s now poll restart).calls
        = [ApiCall.reset, ApiCall.start]) ∧
    (restart = RestartOutcome.resetFailed →
      (pollTick d st consec s now poll restart).calls = [ApiCall.reset]) ∧
    (restart = RestartOutcome.bothOk →
      (pollTick d st consec s now poll restart).consecutiveErrors = 0) ∧
    (pollTick d st consec s now poll restart).completionScheduled = false := by
  unfold pollTick
  rw [if_pos ⟨hlost, hstarted⟩]
  cases restart <;> simp [faceLostResult, faceLostState, hstarted]

/-- Witness for `face_lost_restart_tick`: face lost for 5000 ms at tick
10000 with the best-effort reset failing — progress is reset to 0 and the
new start is not issued. -/
theorem face_lost_restart_tick_witness :
    (pollTick 45 0 3 (runningState 5000) 10000
        (PollOutcome.failure "e") RestartOutcome.resetFailed).state.progress = 0 ∧
    (pollTick 45 0 3 (runningState 5000) 10000
        (PollOutcome.failure "e") RestartOutcome.resetFailed).calls
      = [ApiCall.reset] :=
  ⟨(face_lost_restart_tick 45 0 3 (runningState 5000) 10000
      (PollOutcome.failure "e") RestartOutcome.resetFailed
      (by norm_num [timeSinceFace, runningState]) rfl).1,
   (face_lost_restart_tick 45 0 3 (runningState 5000) 10000
      (PollOutcome.failure "e") RestartOutcome.resetFailed
      (by norm_num [timeSinceFace, runningState]) rfl).2.2.2.2.2.2.2.2.1 rfl⟩

/-- Counterexample to claim C4: the displayed progress sequence is NOT
monotonically non-decreasing across consecutive ticks of one non-restarted
session.  Duration 45 s, started at 0: a successful tick at 2000 ms with
server progress 80 displays 80 (= max(80, time-based 40/9)); the next tick
at 2500 ms fails, and the fallback `setProgress(timeBasedProgress)`
(part_000 line 474) displays 50/9 ≈ 5.6 — a strict decrease. -/
theorem displayed_progress_can_decrease :
    (pollTick 45 0 0 (runningState 2000) 2000
        (PollOutcome.success ⟨RemoteStatus.running, some 80, none⟩)
        RestartOutcome.bothOk).state.progress = 80 ∧
    (pollTick 45 0
        (pollTick 45 0 0 (runningState 2000) 2000
          (PollOutcome.success ⟨RemoteStatus.running, some 80, none⟩)
          RestartOutcome.bothOk).consecutiveErrors
        (pollTick 45 0 0 (runningState 2000) 2000
          (PollOutcome.success ⟨RemoteStatus.running, some 80, none⟩)
          RestartOutcome.bothOk).state
        2500 (PollOutcome.failure "e") RestartOutcome.bothOk).state.progress
      < (pollTick 45 0 0 (runningState 2000) 2000
          (PollOutcome.success ⟨RemoteStatus.running, some 80, none⟩)
          RestartOutcome.bothOk).state.progress := by
  rw [pollTick_success,
    if_neg (by norm_num [timeSinceFace, runningState]),
    pollSuccessResult_running 45 0 _ 2000 _ rfl (by norm_num),
    pollTick_failure,
    if_neg (by norm_num [timeSinceFace, successState, runningState])]
  unfold pollFailureResult
  norm_num [successState, failureState, timeBasedProgress, runningState]

/-- Claim C4 as amended: on a successful non-completing tick (elapsed below
the duration, server status not `complete`) displayed progress equals
`max(serverProgress, timeBasedProgress)` with an absent server progress
read as 0; on a failing non-completing tick it equals pure
`timeBasedProgress`; and the time-based component alone is monotone in
elapsed time.  The full displayed sequence is not monotone (see the
counterexample): a failing tick after a high server report regresses to the
time-based floor. -/
theorem displayed_progress_rule (d st : ℚ) (consec : ℕ) (s : ScanUIState)
    (now : ℚ) (dta : StatusData) (e : String) (restart : RestartOutcome)
    (hface : timeSinceFace s now ≤ 3000 ∨ s.scanStarted = false) :
    (now - st < d * 1000 → dta.status ≠ RemoteStatus.complete →
      (pollTick d st consec s now (PollOutcome.success dta) restart).state.progress
        = max (dta.progressPercent.getD 0) (timeBasedProgress (now - st) d)) ∧
    (consec + 1 ≤ 5 → now - st < d * 1000 →
      (pollTick d st consec s now (PollOutcome.failure e) restart).state.progress
        = timeBasedProgress (now - st) d) ∧
    (∀ e1 e2 : ℚ, 0 < d → e1 ≤ e2 →
      timeBasedProgress e1 d ≤ timeBasedProgress e2 d) := by
  have hcond := presence_ok_not_lost hface
  refine ⟨?_, ?_, ?_⟩
  · intro hdur hst
    rw [pollTick_success, if_neg hcond]
    unfold pollSuccessResult
    rw [if_neg (not_le.mpr hdur), if_neg hst]
    by_cases herr : dta.status = RemoteStatus.error ∧ now - st < d * 1000 * (8 / 10)
    · rw [if_pos herr]
      rfl
    · rw [if_neg herr]
      rfl
  · intro hcount hdur
    rw [pollTick_failure, if_neg hcond]
    unfold pollFailureResult
    rw [if_neg (fun hc => absurd hc.1 (by omega)), if_neg (not_le.mpr hdur)]
    rfl
  · intro e1 e2 hd h12
    unfold timeBasedProgress
    refine min_le_min ?_ le_rfl
    have hdpos : (0 : ℚ) < d * 1000 := mul_pos hd (by norm_num)
    exact mul_le_mul_of_nonneg_right
      ((div_le_div_iff_of_pos_right hdpos).mpr h12) (by norm_num)

/-- Witness for `displayed_progress_rule`: a successful tick with server
progress 10 at 40000 ms, a failing first-failure tick at the same instant,
and monotonicity between 1000 ms and 2000 ms. -/
theorem displayed_progress_rule_witness :
    (pollTick 45 0 0 (runningState 40000) 40000
        (PollOutcome.success ⟨RemoteStatus.running, some 10, none⟩)
        RestartOutcome.bothOk).state.progress
      = max ((some (10 : ℚ)).getD 0) (timeBasedProgress (40000 - 0) 45) ∧
    (pollTick 45 0 0 (runningState 40000) 40000
        (PollOutcome.failure "x") RestartOutcome.bothOk).state.progress
      = timeBasedProgress (40000 - 0) 45 ∧
    timeBasedProgress 1000 45 ≤ timeBasedProgress 2000 45 :=
  ⟨(displayed_progress_rule 45 0 0 (runningState 40000) 40000
      ⟨RemoteStatus.running, some 10, none⟩ "x" RestartOutcome.bothOk
      (Or.inl (by norm_num [timeSinceFace, runningState]))).1
    (by norm_num) (fun hc => RemoteStatus.noConfusion hc),
   (displayed_progress_rule 45 0 0 (runningState 40000) 40000
      ⟨RemoteStatus.running, some 10, none⟩ "x" RestartOutcome.bothOk
      (Or.inl (by norm_num [timeSinceFace, runningState]))).2.1
    (by norm_num) (by norm_num),
   (displayed_progress_rule 45 0 0 (runningState 40000) 40000
      ⟨RemoteStatus.running, some 10, none⟩ "x" RestartOutcome.bothOk
      (Or.inl (by norm_num [timeSinceFace, runningState]))).2.2
    1000 2000 (by norm_num) (by norm_num)⟩

/-- Counterexample to claim C5: the headless variant (app.jsx
lines 240-245) terminates in Error on ANY server-reported `error`,
stopping the poll — including on a tick whose wall-clock elapsed time is
past `0.8 * durationSeconds * 1000` (say 40000 ms of a 45 s scan, where
the claim requires the error to be ignored): the headless loop never reads
the clock, so no late-error suppression exists there. -/
theorem headless_error_never_suppressed :
    (headlessPollTick headlessRunningState
        (PollOutcome.success ⟨RemoteStatus.error, some 90, none⟩)).state.error
      = some "Scan failed. Please try again." ∧
    (headlessPollTick headlessRunningState
        (PollOutcome.success ⟨RemoteStatus.error, some 90, none⟩)).state.pollActive
      = false ∧
    (headlessPollTick headlessRunningState
        (PollOutcome.success ⟨RemoteStatus.error, some 90, none⟩)).state.scanning
      = false :=
  ⟨rfl, rfl, rfl⟩

/-- Claim C5 as amended: in the detector-equipped variant, on a poll tick
that reaches the status poll and whose server status is `error`:
with elapsed below `0.8 * d * 1000` the session terminates in Error
(poll stopped, error surfaced, no completion); with elapsed in
`[0.8 * d * 1000, d * 1000)` the error is ignored and the session keeps
running with no error surfaced; and at or past `d * 1000` the tick
completes by the elapsed-time rule, still with no error surfaced.
The headless variant instead fails on any server `error`. -/
theorem server_error_threshold (d st : ℚ) (consec : ℕ) (s : ScanUIState)
    (now : ℚ) (dta : StatusData) (restart : RestartOutcome) (hd : 0 < d)
    (hface : timeSinceFace s now ≤ 3000 ∨ s.scanStarted = false)
    (herr : dta.status = RemoteStatus.error) :
    (now - st < d * 1000 * (8 / 10) →
      (pollTick d st consec s now (PollOutcome.success dta) restart).state.pollActive
          = false ∧
      (pollTick d st consec s now (PollOutcome.success dta) restart).state.scanning
          = false ∧
      (pollTick d st consec s now (PollOutcome.success dta) restart).state.error
          = some "Scan encountered an issue. Please try again." ∧
      (pollTick d st consec s now (PollOutcome.success dta) restart).state.scanStarted
          = false ∧
      (pollTick d st consec s now (PollOutcome.success dta) restart).completionScheduled
          = false) ∧
    (d * 1000 * (8 / 10) ≤ now - st → now - st < d * 1000 →
      s.pollActive = true →
      (pollTick d st consec s now (PollOutcome.success dta) restart).state.pollActive
          = true ∧
      (pollTick d st consec s now (PollOutcome.success dta) restart).state.error
          = s.error ∧
      (pollTick d st consec s now (PollOutcome.success dta) restart).state.scanning
          = s.scanning ∧
      (pollTick d st consec s now (PollOutcome.success dta) restart).completionScheduled
          = false) ∧
    (d * 1000 ≤ now - st →
      (pollTick d st consec s now (PollOutcome.success dta) restart).state.progress
          = 100 ∧
      (pollTick d st consec s now (PollOutcome.success dta) restart).state.error
          = s.error ∧
      (pollTick d st consec s now (PollOutcome.success dta) restart).completionScheduled
          = true) := by
  have hcond := presence_ok_not_lost hface
  have hdpos : (0 : ℚ) < d * 1000 := mul_pos hd (by norm_num)
  refine ⟨?_, ?_, ?_⟩
  · intro hdur08
    have hdur : now - st < d * 1000 := by nlinarith
    rw [pollTick_success, if_neg hcond]
    unfold pollSuccessResult
    rw [if_neg (not_le.mpr hdur), herr]
    rw [if_neg (fun hc => RemoteStatus.noConfusion hc)]
    rw [if_pos ⟨rfl, hdur08⟩]
    exact ⟨rfl, rfl, rfl, rfl, rfl⟩
  · intro h08 hdur hpoll
    rw [pollTick_success, if_neg hcond]
    unfold pollSuccessResult
    rw [if_neg (not_le.mpr hdur), herr]
    rw [if_neg (fun hc => RemoteStatus.noConfusion hc)]
    rw [if_neg (fun hc => absurd hc.2 (not_lt.mpr h08))]
    exact ⟨hpoll, rfl, rfl, rfl⟩
  · intro helapsed
    rw [pollTick_success, if_neg hcond]
    unfold pollSuccessResult
    rw [if_pos helapsed]
    exact ⟨rfl, rfl, rfl⟩

/-- Witness for `server_error_threshold`: a server `error` at 40000 ms of a
45 s session (past the 36000 ms = 0.8 threshold, below the duration) is
ignored — polling continues with no error surfaced. -/
theorem server_error_threshold_witness :
    (pollTick 45 0 0 (runningState 40000) 40000
        (PollOutcome.success ⟨RemoteStatus.error, some 50, none⟩)
        RestartOutcome.bothOk).state.pollActive = true ∧
    (pollTick 45 0 0 (runningState 40000) 40000
        (PollOutcome.success ⟨RemoteStatus.error, some 50, none⟩)
        RestartOutcome.bothOk).state.error = (runningState 40000).error ∧
    (pollTick 45 0 0 (runningState 40000) 40000
        (PollOutcome.success ⟨RemoteStatus.error, some 50, none⟩)
        RestartOutcome.bothOk).state.scanning = (runningState 40000).scanning ∧
    (pollTick 45 0 0 (runningState 40000) 40000
        (PollOutcome.success ⟨RemoteStatus.error, some 50, none⟩)
        RestartOutcome.bothOk).completionScheduled = false :=
  (server_error_threshold 45 0 0 (runningState 40000) 40000
      ⟨RemoteStatus.error, some 50, none⟩ RestartOutcome.bothOk
      (by norm_num) (Or.inl (by norm_num [timeSinceFace, runningState]))
      rfl).2.1
    (by norm_num) (by norm_num) rfl

/-- Counterexample to claim C6: in the headless variant (app.jsx
lines 246-251) a single transport failure from the status poll — below any
failure budget and any duration — immediately surfaces an error, stops the
poll interval and stops scanning, instead of staying Running on time-based
progress. -/
theorem headless_transport_failure_fatal :
    (headlessPollTick headlessRunningState
        (PollOutcome.failure "Failed to fetch")).state.error
      = some ("Lost connection to backend: " ++ "Failed to fetch") ∧
    (headlessPollTick headlessRunningState
        (PollOutcome.failure "Failed to fetch")).state.pollActive = false ∧
    (headlessPollTick headlessRunningState
        (PollOutcome.failure "Failed to fetch")).state.scanning = false :=
  ⟨rfl, rfl, rfl⟩

/-- Claim C6 as amended: in the detector-equipped variant, a transport
failure of the status poll never by itself moves the session to Error:
on a failing tick below both the consecutive-failure budget (at most 5
consecutive failures counting this one) and the configured duration, the
orchestrator keeps its scanning flag and error field unchanged, displays
pure time-based progress, increments the failure counter and keeps polling.
The headless variant instead fails the session on the first transport
failure. -/
theorem transport_failure_absorbed (d st : ℚ) (consec : ℕ) (s : ScanUIState)
    (now : ℚ) (e : String) (restart : RestartOutcome)
    (hface : timeSinceFace s now ≤ 3000 ∨ s.scanStarted = false)
    (hbudget : consec + 1 ≤ 5) (hdur : now - st < d * 1000)
    (hpoll : s.pollActive = true) :
    (pollTick d st consec s now (PollOutcome.failure e) restart).state.pollActive
        = true ∧
    (pollTick d st consec s now (PollOutcome.failure e) restart).state.scanning
        = s.scanning ∧
    (pollTick d st consec s now (PollOutcome.failure e) restart).state.error
        = s.error ∧
    (pollTick d st consec s now (PollOutcome.failure e) restart).state.progress
        = timeBasedProgress (now - st) d ∧
    (pollTick d st consec s now (PollOutcome.failure e) restart).consecutiveErrors
        = consec + 1 ∧
    (pollTick d st consec s now (PollOutcome.failure e) restart).completionScheduled
        = false := by
  have hcond := presence_ok_not_lost hface
  rw [pollTick_failure, if_neg hcond]
  unfold pollFailureResult
  rw [if_neg (fun hc => absurd hc.1 (by omega)), if_neg (not_le.mpr hdur)]
  exact ⟨hpoll, rfl, rfl, rfl, rfl, rfl⟩

/-- Witness for `transport_failure_absorbed`: the first failing tick at
1000 ms of a 45 s session with the face just seen. -/
theorem transport_failure_absorbed_witness :
    (pollTick 45 0 0 (runningState 1000) 1000
        (PollOutcome.failure "x") RestartOutcome.bothOk).state.pollActive
        = true ∧
    (pollTick 45 0 0 (runningState 1000) 1000
        (PollOutcome.failure "x") RestartOutcome.bothOk).state.scanning
        = (runningState 1000).scanning ∧
    (pollTick 45 0 0 (runningState 1000) 1000
        (PollOutcome.failure "x") RestartOutcome.bothOk).state.error
        = (runningState 1000).error ∧
    (pollTick 45 0 0 (runningState 1000) 1000
        (PollOutcome.failure "x") RestartOutcome.bothOk).state.progress
        = timeBasedProgress (1000 - 0) 45 ∧
    (pollTick 45 0 0 (runningState 1000) 1000
        (PollOutcome.failure "x") RestartOutcome.bothOk).consecutiveErrors
        = 0 + 1 ∧
    (pollTick 45 0 0 (runningState 1000) 1000
        (PollOutcome.failure "x") RestartOutcome.bothOk).completionScheduled
        = false :=
  transport_failure_absorbed 45 0 0 (runningState 1000) 1000 "x"
    RestartOutcome.bothOk (Or.inl (by norm_num [timeSinceFace, runningState]))
    (by norm_num) (by norm_num) rfl

end FaceScan
